import Mathlib

/-!
# Route-table reconciler (`substrate/pkg/controller/substrate/infrastructure/routetable.go`)

A shallow embedding of `RouteTable.Create`, `RouteTable.ensure` and
`RouteTable.Delete`.

* Go pointers that the code tests or dereferences are `Option`s
  (`*string`, `*ec2.RouteTable`).
* The EC2 client is a deterministic state machine over an arbitrary cloud
  state `σ`; every client call is appended to a call log, so that "issues
  exactly n calls" is a statement about the log.
* A Go call that panics (nil dereference, failed type assertion) ends in
  `Outcome.panicked`.
* Logging is dropped, except that the arguments of a log call are still
  evaluated (they can panic).
-/

/-! ## Go errors -/

/-- A Go `error` value, as far as this file can observe it: whether it
implements `awserr.Error` (and then its `Code()`), its `Error()` text, and
whether it was built by `fmt.Errorf` with `%w`. -/
inductive GoError where
  /-- A value implementing `awserr.Error`; `text` is what `Error()` prints. -/
  | awsError (code : String) (text : String)
  /-- Any error value that does not implement `awserr.Error`. -/
  | plain (text : String)
  /-- The `*fmt.wrapError` built by `fmt.Errorf` with a `%w` verb. -/
  | wrapError (msg : String) (err : GoError)
  deriving DecidableEq, Repr

namespace GoError

/-- The `Error()` method. -/
def Error : GoError → String
  | awsError _ text => text
  | plain text => text
  | wrapError msg _ => msg

/-- The `Unwrap()` method as seen by `errors.Unwrap`. -/
def Unwrap : GoError → Option GoError
  | wrapError _ err => some err
  | _ => none

/-- The checked form of the type assertion `err.(awserr.Error)` followed by
`.Code()`: `none` when the dynamic type does not implement `awserr.Error`. -/
def awsCode : GoError → Option String
  | awsError code _ => some code
  | _ => none

end GoError

namespace fmt

/-- The call `fmt.Errorf(before + "%w", err)`: the three format strings of the
file all end in `%w`, so the message is `before` followed by `err.Error()`. -/
def Errorf (before : String) (err : GoError) : GoError :=
  GoError.wrapError (before ++ err.Error) err

end fmt

/-! ## The result of a Go call -/

/-- How a Go call ends: it returns a value, or it panics. -/
inductive Outcome (α : Type) where
  | returned (a : α)
  | panicked
  deriving DecidableEq, Repr

namespace reconcile

/-- The type `reconcile.Result` of controller-runtime. -/
structure Result where
  Requeue : Bool := false
  RequeueAfter : Int := 0
  deriving DecidableEq, Repr

end reconcile

/-! ## The parent resource -/

namespace v1alpha1

/-- Modelled from the spec: the three identifier fields of
`Status.Infrastructure` that this file reads or writes (the declaration of
package `v1alpha1` is not among the source files). -/
structure InfrastructureStatus where
  VPCID : Option String
  PublicRouteTableID : Option String
  PrivateRouteTableID : Option String
  deriving DecidableEq, Repr

/-- Modelled from the spec: the status sub-structure of a substrate. -/
structure SubstrateStatus where
  Infrastructure : InfrastructureStatus
  deriving DecidableEq, Repr

/-- Modelled from the spec: a `v1alpha1.Substrate`. Every field other than the
three identifiers above (metadata, spec, the rest of the status) is carried in
`other`, of an arbitrary type. -/
structure Substrate (α : Type) where
  Status : SubstrateStatus
  other : α
  deriving DecidableEq, Repr

end v1alpha1

/-! ## The EC2 client -/

namespace ec2

/-- The SDK type `ec2.Filter`. -/
structure Filter where
  Name : Option String
  Values : List (Option String)
  deriving DecidableEq, Repr

/-- The SDK type `ec2.Tag`. -/
structure Tag where
  Key : Option String
  Value : Option String
  deriving DecidableEq, Repr

/-- The SDK type `ec2.TagSpecification`. -/
structure TagSpecification where
  ResourceType : Option String
  Tags : List Tag
  deriving DecidableEq, Repr

/-- The SDK type `ec2.RouteTable`; `RouteTableId` is a `*string`. -/
structure RouteTable where
  RouteTableId : Option String
  VpcId : Option String
  Tags : List Tag
  deriving DecidableEq, Repr

structure DescribeRouteTablesInput where
  Filters : List Filter
  deriving DecidableEq, Repr

/-- The slice `RouteTables` is a `[]*ec2.RouteTable`: an element can be nil. -/
structure DescribeRouteTablesOutput where
  RouteTables : List (Option RouteTable)
  deriving DecidableEq, Repr

structure CreateRouteTableInput where
  VpcId : Option String
  TagSpecifications : List TagSpecification
  deriving DecidableEq, Repr

/-- The field `RouteTable` is a `*ec2.RouteTable`. -/
structure CreateRouteTableOutput where
  RouteTable : Option RouteTable
  deriving DecidableEq, Repr

structure DeleteRouteTableInput where
  RouteTableId : Option String
  deriving DecidableEq, Repr

/-- The SDK constant `ec2.ResourceTypeRouteTable`. -/
def ResourceTypeRouteTable : String := "route-table"

/-- One call made on the client. -/
inductive Call where
  | DescribeRouteTables (input : DescribeRouteTablesInput)
  | CreateRouteTable (input : CreateRouteTableInput)
  | DeleteRouteTable (input : DeleteRouteTableInput)
  deriving DecidableEq, Repr

namespace Call

def isDescribe : Call → Bool
  | DescribeRouteTables _ => true
  | _ => false

def isCreate : Call → Bool
  | CreateRouteTable _ => true
  | _ => false

def isDelete : Call → Bool
  | DeleteRouteTable _ => true
  | _ => false

end Call

/-- The behaviour of the cloud behind the client: each operation maps the
cloud state and the request to the answer and the next cloud state. An answer
is the pair `(output, err)` of the SDK, with `err != nil` as `Except.error`
(the file never reads the output then) and `err == nil` as `Except.ok` (the
SDK allocates the output before sending). -/
structure EC2 (σ : Type) where
  describeRouteTables : σ → DescribeRouteTablesInput → Except GoError DescribeRouteTablesOutput × σ
  createRouteTable : σ → CreateRouteTableInput → Except GoError CreateRouteTableOutput × σ
  deleteRouteTable : σ → DeleteRouteTableInput → Except GoError Unit × σ

/-- The cloud state together with the log of the calls made so far, oldest
first. -/
structure World (σ : Type) where
  cloud : σ
  calls : List Call
  deriving DecidableEq, Repr

/-- The calls logged in `w1` after the ones already logged in `w`. -/
def World.issuedSince {σ : Type} (w w1 : World σ) : List Call :=
  w1.calls.drop w.calls.length

namespace EC2

variable {σ : Type}

def DescribeRouteTablesWithContext (c : EC2 σ) (w : World σ) (input : DescribeRouteTablesInput) :
    Except GoError DescribeRouteTablesOutput × World σ :=
  ((c.describeRouteTables w.cloud input).1,
    { cloud := (c.describeRouteTables w.cloud input).2,
      calls := w.calls ++ [Call.DescribeRouteTables input] })

def CreateRouteTableWithContext (c : EC2 σ) (w : World σ) (input : CreateRouteTableInput) :
    Except GoError CreateRouteTableOutput × World σ :=
  ((c.createRouteTable w.cloud input).1,
    { cloud := (c.createRouteTable w.cloud input).2,
      calls := w.calls ++ [Call.CreateRouteTable input] })

def DeleteRouteTableWithContext (c : EC2 σ) (w : World σ) (input : DeleteRouteTableInput) :
    Except GoError Unit × World σ :=
  ((c.deleteRouteTable w.cloud input).1,
    { cloud := (c.deleteRouteTable w.cloud input).2,
      calls := w.calls ++ [Call.DeleteRouteTable input] })

/-- The cloud state after the tables of the list have been deleted one after
the other, when every one of these deletes succeeds; `none` when one fails. -/
def deleteAll (c : EC2 σ) : σ → List RouteTable → Option σ
  | s, [] => some s
  | s, t :: ts =>
    match c.deleteRouteTable s { RouteTableId := t.RouteTableId } with
    | (Except.ok _, s1) => deleteAll c s1 ts
    | (Except.error _, _) => none

end EC2

end ec2

/-! ## The discovery helpers -/

namespace discovery

/-- The three helpers of package `discovery` that the file calls; the package
is not among the source files, so they are taken as parameters: deterministic
functions that only read the substrate. `Name` and `Filters` are variadic in
Go. -/
structure Helpers (α : Type) where
  Name : v1alpha1.Substrate α → List String → Option String
  Filters : v1alpha1.Substrate α → List (Option String) → List ec2.Filter
  Tags : v1alpha1.Substrate α → Option String → List ec2.Tag

end discovery

/-! ## The reconciler -/

namespace infrastructure

open v1alpha1 ec2

variable {α σ : Type}

/-- The struct `RouteTable` of the file, with the discovery helpers it
imports. -/
structure RouteTable (α σ : Type) where
  EC2 : ec2.EC2 σ
  discovery : discovery.Helpers α

/-- The request `ensure` builds for its create call (lines 61-67). -/
def RouteTable.createInput (r : RouteTable α σ) (substrate : Substrate α) (name : Option String) :
    CreateRouteTableInput :=
  { VpcId := substrate.Status.Infrastructure.VPCID
    TagSpecifications :=
      [{ ResourceType := some ResourceTypeRouteTable
         Tags := r.discovery.Tags substrate name }] }

/-- The method `ensure` (lines 52-73). It returns the Go pair
`(*ec2.RouteTable, error)` and the world after its calls. -/
def RouteTable.ensure (r : RouteTable α σ) (w : World σ) (substrate : Substrate α)
    (name : Option String) :
    Outcome (Option ec2.RouteTable × Option GoError) × World σ :=
  match r.EC2.DescribeRouteTablesWithContext w
      { Filters := r.discovery.Filters substrate [name] } with
  | (Except.error err, w1) =>
    (Outcome.returned (none, some (fmt.Errorf "describing route tables, " err)), w1)
  | (Except.ok describeRouteTablesOutput, w1) =>
    match describeRouteTablesOutput.RouteTables with
    | first :: _ =>
      -- line 58: the argument `*RouteTables[0].RouteTableId` of Debugf
      match first with
      | none => (Outcome.panicked, w1)
      | some routeTable =>
        match routeTable.RouteTableId with
        | none => (Outcome.panicked, w1)
        | some _ => (Outcome.returned (some routeTable, none), w1)
    | [] =>
      match r.EC2.CreateRouteTableWithContext w1 (r.createInput substrate name) with
      | (Except.error err, w2) =>
        (Outcome.returned (none, some (fmt.Errorf "creating route table, " err)), w2)
      | (Except.ok createRouteTableOutput, w2) =>
        (Outcome.returned (createRouteTableOutput.RouteTable, none), w2)

/-- The substrate after `substrate.Status.Infrastructure.PublicRouteTableID = id`. -/
def setPublicRouteTableID (substrate : Substrate α) (id : Option String) : Substrate α :=
  { substrate with
    Status := { Infrastructure := { substrate.Status.Infrastructure with PublicRouteTableID := id } } }

/-- The substrate after `substrate.Status.Infrastructure.PrivateRouteTableID = id`. -/
def setPrivateRouteTableID (substrate : Substrate α) (id : Option String) : Substrate α :=
  { substrate with
    Status := { Infrastructure := { substrate.Status.Infrastructure with PrivateRouteTableID := id } } }

/-- The method `Create` (lines 35-50). It returns the Go pair
`(reconcile.Result, error)`, the substrate as the call leaves it (it is
mutated through the pointer) and the world after its calls. -/
def RouteTable.Create (r : RouteTable α σ) (w : World σ) (substrate : Substrate α) :
    Outcome (reconcile.Result × Option GoError) × Substrate α × World σ :=
  match substrate.Status.Infrastructure.VPCID with
  | none => (Outcome.returned ({ Requeue := true }, none), substrate, w)
  | some _ =>
    match r.ensure w substrate (r.discovery.Name substrate ["public"]) with
    | (Outcome.panicked, w1) => (Outcome.panicked, substrate, w1)
    | (Outcome.returned (_, some err), w1) => (Outcome.returned ({}, some err), substrate, w1)
    | (Outcome.returned (none, none), w1) =>
      -- line 43: `publicRouteTable.RouteTableId` on a nil pointer
      (Outcome.panicked, substrate, w1)
    | (Outcome.returned (some publicRouteTable, none), w1) =>
      let substrate1 := setPublicRouteTableID substrate publicRouteTable.RouteTableId
      match r.ensure w1 substrate1 (r.discovery.Name substrate1 ["private"]) with
      | (Outcome.panicked, w2) => (Outcome.panicked, substrate1, w2)
      | (Outcome.returned (_, some err), w2) => (Outcome.returned ({}, some err), substrate1, w2)
      | (Outcome.returned (none, none), w2) => (Outcome.panicked, substrate1, w2)
      | (Outcome.returned (some privateRouteTable, none), w2) =>
        (Outcome.returned ({}, none),
          setPrivateRouteTableID substrate1 privateRouteTable.RouteTableId, w2)

/-- The `for ... range` loop of `Delete` (lines 86-97) followed by the final
`return reconcile.Result{}, nil` (line 98). -/
def RouteTable.deleteLoop (r : RouteTable α σ) :
    World σ → List (Option ec2.RouteTable) → Outcome (reconcile.Result × Option GoError) × World σ
  | w, [] => (Outcome.returned ({}, none), w)
  | w, none :: _ =>
    -- line 87: `routeTable.RouteTableId` on a nil pointer
    (Outcome.panicked, w)
  | w, some routeTable :: rest =>
    match r.EC2.DeleteRouteTableWithContext w { RouteTableId := routeTable.RouteTableId } with
    | (Except.error err, w1) =>
      -- line 88: the unchecked assertion `err.(awserr.Error)`
      match err.awsCode with
      | none => (Outcome.panicked, w1)
      | some code =>
        if code = "DependencyViolation" then
          (Outcome.returned ({ Requeue := true }, none), w1)
        else
          (Outcome.returned ({}, some (fmt.Errorf "deleting route table, " err)), w1)
    | (Except.ok _, w1) => RouteTable.deleteLoop r w1 rest

/-- The method `Delete` (lines 75-99). The substrate is returned as the call
leaves it. -/
def RouteTable.Delete (r : RouteTable α σ) (w : World σ) (substrate : Substrate α) :
    Outcome (reconcile.Result × Option GoError) × Substrate α × World σ :=
  match r.EC2.DescribeRouteTablesWithContext w { Filters := r.discovery.Filters substrate [] } with
  | (Except.error err, w1) =>
    (Outcome.returned ({}, some (fmt.Errorf "describing route tables, " err)), substrate, w1)
  | (Except.ok describeRouteTablesOutput, w1) =>
    match describeRouteTablesOutput.RouteTables with
    | [] => (Outcome.returned ({}, none), substrate, w1)
    | routeTables =>
      ((r.deleteLoop w1 routeTables).1, substrate, (r.deleteLoop w1 routeTables).2)

/-- The cloud model of the idempotence property, for one substrate and role
name: describing again gives the same answer, and a table created by `ensure`
after an empty describe carries an identifier and is what the next describe
returns. -/
structure ReliableDescribe (r : RouteTable α σ) (substrate : Substrate α) (name : Option String) :
    Prop where
  stable : ∀ s out s1,
    r.EC2.describeRouteTables s { Filters := r.discovery.Filters substrate [name] } = (Except.ok out, s1) →
    (r.EC2.describeRouteTables s1 { Filters := r.discovery.Filters substrate [name] }).1 = Except.ok out
  reflectsCreate : ∀ s0 s t s1,
    r.EC2.describeRouteTables s0 { Filters := r.discovery.Filters substrate [name] }
      = (Except.ok { RouteTables := [] }, s) →
    r.EC2.createRouteTable s (r.createInput substrate name) = (Except.ok { RouteTable := some t }, s1) →
    (∃ id, t.RouteTableId = some id) ∧
    (r.EC2.describeRouteTables s1 { Filters := r.discovery.Filters substrate [name] }).1
      = Except.ok { RouteTables := [some t] }

end infrastructure

/-! ## Concrete clients and substrates used to instantiate the theorems -/

namespace mock

open ec2 v1alpha1 infrastructure

/-- One canned answer of the scripted client. -/
inductive Reply where
  | describe (answer : Except GoError DescribeRouteTablesOutput)
  | create (answer : Except GoError CreateRouteTableOutput)
  | delete (answer : Except GoError Unit)

/-- A client that answers from a script: each call consumes the next canned
answer, which must be of the kind of the call. -/
def scripted : EC2 (List Reply) where
  describeRouteTables s _ :=
    match s with
    | Reply.describe answer :: rest => (answer, rest)
    | _ => (Except.error (GoError.plain "unexpected call"), s)
  createRouteTable s _ :=
    match s with
    | Reply.create answer :: rest => (answer, rest)
    | _ => (Except.error (GoError.plain "unexpected call"), s)
  deleteRouteTable s _ :=
    match s with
    | Reply.delete answer :: rest => (answer, rest)
    | _ => (Except.error (GoError.plain "unexpected call"), s)

/-- Discovery helpers for the examples: the name joins the suffixes, a filter
and a tag both carry the name under the key `Name`. -/
def helpers : discovery.Helpers Unit where
  Name _ suffixes := some (String.intercalate "-" ("kit" :: suffixes))
  Filters _ names := names.map fun n => { Name := some "Name", Values := [n] }
  Tags _ name := [{ Key := some "Name", Value := name }]

def reconciler : RouteTable Unit (List Reply) :=
  { EC2 := scripted, discovery := helpers }

/-- A substrate whose VPC is not resolved yet. -/
def notReady : Substrate Unit :=
  { Status := { Infrastructure := { VPCID := none, PublicRouteTableID := none, PrivateRouteTableID := none } }
    other := () }

/-- A substrate whose VPC is resolved. -/
def ready : Substrate Unit :=
  { Status := { Infrastructure := { VPCID := some "vpc-1", PublicRouteTableID := none, PrivateRouteTableID := none } }
    other := () }

def table (id : String) (name : String) : ec2.RouteTable :=
  { RouteTableId := some id, VpcId := some "vpc-1", Tags := [{ Key := some "Name", Value := some name }] }

/-- A table as the SDK type allows it, with the identifier pointer nil. -/
def tableWithoutId : ec2.RouteTable :=
  { RouteTableId := none, VpcId := some "vpc-1", Tags := [] }

def start (script : List Reply) : World (List Reply) :=
  { cloud := script, calls := [] }

/-- Script of a converge that finds nothing and creates both tables. -/
def convergeScript : List Reply :=
  [Reply.describe (Except.ok { RouteTables := [] }),
   Reply.create (Except.ok { RouteTable := some (table "rtb-pub" "kit-public") }),
   Reply.describe (Except.ok { RouteTables := [] }),
   Reply.create (Except.ok { RouteTable := some (table "rtb-priv" "kit-private") })]

/-- Script of a converge that finds the public table (and an older duplicate)
and creates the private one. -/
def recoveryScript : List Reply :=
  [Reply.describe (Except.ok
     { RouteTables := [some (table "rtb-pub" "kit-public"), some (table "rtb-old" "kit-public")] }),
   Reply.describe (Except.ok { RouteTables := [] }),
   Reply.create (Except.ok { RouteTable := some (table "rtb-priv" "kit-private") })]

/-- Script of a teardown that finds two tables and deletes both. -/
def teardownScript : List Reply :=
  [Reply.describe (Except.ok
     { RouteTables := [some (table "rtb-pub" "kit-public"), some (table "rtb-priv" "kit-private")] }),
   Reply.delete (Except.ok ()),
   Reply.delete (Except.ok ())]

/-- Script of a teardown that finds three tables; the first delete succeeds,
the second one meets a dependency violation. -/
def backoffScript : List Reply :=
  [Reply.describe (Except.ok
     { RouteTables := [some (table "rtb-a" "kit-public"), some (table "rtb-b" "kit-private"),
         some (table "rtb-c" "kit-private")] }),
   Reply.delete (Except.ok ()),
   Reply.delete (Except.error (GoError.awsError "DependencyViolation" "DependencyViolation: in use")),
   Reply.delete (Except.ok ())]

/-- Script of a teardown whose first delete fails with an AWS error other than
the dependency violation. -/
def unauthorizedScript : List Reply :=
  [Reply.describe (Except.ok { RouteTables := [some (table "rtb-a" "kit-public")] }),
   Reply.delete (Except.error (GoError.awsError "UnauthorizedOperation" "UnauthorizedOperation: denied"))]

/-- Script of a teardown whose first delete fails with an error value that
does not implement `awserr.Error`. -/
def plainErrorScript : List Reply :=
  [Reply.describe (Except.ok
     { RouteTables := [some (table "rtb-a" "kit-public"), some (table "rtb-b" "kit-private")] }),
   Reply.delete (Except.error (GoError.plain "context deadline exceeded")),
   Reply.delete (Except.ok ())]

/-- Script of an ensure whose describe finds one table without identifier. -/
def noIdScript : List Reply :=
  [Reply.describe (Except.ok { RouteTables := [some tableWithoutId] }),
   Reply.create (Except.ok { RouteTable := some (table "rtb-new" "kit-public") })]

/-- Script of a converge whose first describe fails. -/
def describeFailsScript : List Reply :=
  [Reply.describe (Except.error (GoError.awsError "RequestLimitExceeded" "RequestLimitExceeded: slow down"))]

/-- Script of a converge that finds the public table and fails to create the
private one. -/
def privateFailsScript : List Reply :=
  [Reply.describe (Except.ok { RouteTables := [some (table "rtb-pub" "kit-public")] }),
   Reply.describe (Except.ok { RouteTables := [] }),
   Reply.create (Except.error (GoError.plain "connection reset"))]

/-- Whether a table satisfies every filter: it has a tag under the filter's
name with one of the filter's values. -/
def satisfies (filters : List Filter) (t : ec2.RouteTable) : Bool :=
  filters.all fun f => t.Tags.any fun tag => tag.Key == f.Name && f.Values.contains tag.Value

/-- The table the storing cloud creates for a request when it already holds
the tables `s`. -/
def fresh (s : List ec2.RouteTable) (input : CreateRouteTableInput) : ec2.RouteTable :=
  { RouteTableId := some (String.join ("rtb" :: List.replicate s.length "-"))
    VpcId := input.VpcId
    Tags := (input.TagSpecifications.map fun spec => spec.Tags).flatten }

/-- A cloud that stores the tables created so far, oldest first: describe
returns the stored tables that satisfy the filters, create appends a table
with a fresh identifier and the requested tags, delete removes by identifier. -/
def store : EC2 (List ec2.RouteTable) where
  describeRouteTables s input :=
    (Except.ok { RouteTables := (s.filter (satisfies input.Filters)).map some }, s)
  createRouteTable s input :=
    (Except.ok { RouteTable := some (fresh s input) }, s ++ [fresh s input])
  deleteRouteTable s input :=
    (Except.ok (), s.filter fun t => t.RouteTableId != input.RouteTableId)

def storeReconciler : RouteTable Unit (List ec2.RouteTable) :=
  { EC2 := store, discovery := helpers }

end mock

/-! ## Properties -/

namespace infrastructure

open v1alpha1 ec2

variable {α σ : Type}

/-! ### The four ways `ensure` can return -/

theorem World.issuedSince_append (w : World σ) (s : σ) (l : List Call) :
    w.issuedSince { cloud := s, calls := w.calls ++ l } = l := by
  simp [World.issuedSince]

theorem ensure_describe_error (r : RouteTable α σ) (w : World σ) (substrate : Substrate α)
    (name : Option String) (e : GoError) (s1 : σ)
    (hd : r.EC2.describeRouteTables w.cloud { Filters := r.discovery.Filters substrate [name] }
      = (Except.error e, s1)) :
    r.ensure w substrate name
      = (Outcome.returned (none, some (fmt.Errorf "describing route tables, " e)),
          { cloud := s1
            calls := w.calls
              ++ [Call.DescribeRouteTables { Filters := r.discovery.Filters substrate [name] }] }) := by
  simp [RouteTable.ensure, EC2.DescribeRouteTablesWithContext, hd]

theorem ensure_found (r : RouteTable α σ) (w : World σ) (substrate : Substrate α)
    (name : Option String) (t : ec2.RouteTable) (rest : List (Option ec2.RouteTable)) (id : String)
    (s1 : σ)
    (hd : r.EC2.describeRouteTables w.cloud { Filters := r.discovery.Filters substrate [name] }
      = (Except.ok { RouteTables := some t :: rest }, s1))
    (hid : t.RouteTableId = some id) :
    r.ensure w substrate name
      = (Outcome.returned (some t, none),
          { cloud := s1
            calls := w.calls
              ++ [Call.DescribeRouteTables { Filters := r.discovery.Filters substrate [name] }] }) := by
  simp [RouteTable.ensure, EC2.DescribeRouteTablesWithContext, hd, hid]

theorem ensure_created (r : RouteTable α σ) (w : World σ) (substrate : Substrate α)
    (name : Option String) (out : CreateRouteTableOutput) (s1 s2 : σ)
    (hd : r.EC2.describeRouteTables w.cloud { Filters := r.discovery.Filters substrate [name] }
      = (Except.ok { RouteTables := [] }, s1))
    (hc : r.EC2.createRouteTable s1 (r.createInput substrate name) = (Except.ok out, s2)) :
    r.ensure w substrate name
      = (Outcome.returned (out.RouteTable, none),
          { cloud := s2
            calls := w.calls
              ++ [Call.DescribeRouteTables { Filters := r.discovery.Filters substrate [name] },
                  Call.CreateRouteTable (r.createInput substrate name)] }) := by
  simp [RouteTable.ensure, EC2.DescribeRouteTablesWithContext, EC2.CreateRouteTableWithContext, hd, hc]

theorem ensure_create_error (r : RouteTable α σ) (w : World σ) (substrate : Substrate α)
    (name : Option String) (e : GoError) (s1 s2 : σ)
    (hd : r.EC2.describeRouteTables w.cloud { Filters := r.discovery.Filters substrate [name] }
      = (Except.ok { RouteTables := [] }, s1))
    (hc : r.EC2.createRouteTable s1 (r.createInput substrate name) = (Except.error e, s2)) :
    r.ensure w substrate name
      = (Outcome.returned (none, some (fmt.Errorf "creating route table, " e)),
          { cloud := s2
            calls := w.calls
              ++ [Call.DescribeRouteTables { Filters := r.discovery.Filters substrate [name] },
                  Call.CreateRouteTable (r.createInput substrate name)] }) := by
  simp [RouteTable.ensure, EC2.DescribeRouteTablesWithContext, EC2.CreateRouteTableWithContext, hd, hc]

/-- Every way `ensure` can end, with the answers of the cloud that lead to
it and the calls it logs. -/
theorem ensure_cases (r : RouteTable α σ) (w : World σ) (substrate : Substrate α)
    (name : Option String) :
    (∃ e s1,
      r.EC2.describeRouteTables w.cloud { Filters := r.discovery.Filters substrate [name] }
        = (Except.error e, s1) ∧
      r.ensure w substrate name
        = (Outcome.returned (none, some (fmt.Errorf "describing route tables, " e)),
            { cloud := s1
              calls := w.calls
                ++ [Call.DescribeRouteTables { Filters := r.discovery.Filters substrate [name] }] }))
    ∨ (∃ t rest id s1,
      r.EC2.describeRouteTables w.cloud { Filters := r.discovery.Filters substrate [name] }
        = (Except.ok { RouteTables := some t :: rest }, s1) ∧
      t.RouteTableId = some id ∧
      r.ensure w substrate name
        = (Outcome.returned (some t, none),
            { cloud := s1
              calls := w.calls
                ++ [Call.DescribeRouteTables { Filters := r.discovery.Filters substrate [name] }] }))
    ∨ (∃ first rest s1,
      r.EC2.describeRouteTables w.cloud { Filters := r.discovery.Filters substrate [name] }
        = (Except.ok { RouteTables := first :: rest }, s1) ∧
      (first = none ∨ ∃ t, first = some t ∧ t.RouteTableId = none) ∧
      r.ensure w substrate name
        = (Outcome.panicked,
            { cloud := s1
              calls := w.calls
                ++ [Call.DescribeRouteTables { Filters := r.discovery.Filters substrate [name] }] }))
    ∨ (∃ s1 out s2,
      r.EC2.describeRouteTables w.cloud { Filters := r.discovery.Filters substrate [name] }
        = (Except.ok { RouteTables := [] }, s1) ∧
      r.EC2.createRouteTable s1 (r.createInput substrate name) = (Except.ok out, s2) ∧
      r.ensure w substrate name
        = (Outcome.returned (out.RouteTable, none),
            { cloud := s2
              calls := w.calls
                ++ [Call.DescribeRouteTables { Filters := r.discovery.Filters substrate [name] },
                    Call.CreateRouteTable (r.createInput substrate name)] }))
    ∨ (∃ s1 e s2,
      r.EC2.describeRouteTables w.cloud { Filters := r.discovery.Filters substrate [name] }
        = (Except.ok { RouteTables := [] }, s1) ∧
      r.EC2.createRouteTable s1 (r.createInput substrate name) = (Except.error e, s2) ∧
      r.ensure w substrate name
        = (Outcome.returned (none, some (fmt.Errorf "creating route table, " e)),
            { cloud := s2
              calls := w.calls
                ++ [Call.DescribeRouteTables { Filters := r.discovery.Filters substrate [name] },
                    Call.CreateRouteTable (r.createInput substrate name)] })) := by
  rcases hd : r.EC2.describeRouteTables w.cloud { Filters := r.discovery.Filters substrate [name] }
    with ⟨res, s1⟩
  cases res with
  | error e => exact Or.inl ⟨e, s1, rfl, ensure_describe_error r w substrate name e s1 hd⟩
  | ok out =>
    rcases out with ⟨tables⟩
    cases tables with
    | nil =>
      rcases hc : r.EC2.createRouteTable s1 (r.createInput substrate name) with ⟨res2, s2⟩
      cases res2 with
      | error e =>
        exact Or.inr (Or.inr (Or.inr (Or.inr
          ⟨s1, e, s2, rfl, hc, ensure_create_error r w substrate name e s1 s2 hd hc⟩)))
      | ok out2 =>
        exact Or.inr (Or.inr (Or.inr (Or.inl
          ⟨s1, out2, s2, rfl, hc, ensure_created r w substrate name out2 s1 s2 hd hc⟩)))
    | cons first rest =>
      cases first with
      | none =>
        refine Or.inr (Or.inr (Or.inl ⟨none, rest, s1, rfl, Or.inl rfl, ?_⟩))
        simp [RouteTable.ensure, EC2.DescribeRouteTablesWithContext, hd]
      | some t =>
        cases hid : t.RouteTableId with
        | none =>
          refine Or.inr (Or.inr (Or.inl ⟨some t, rest, s1, rfl, Or.inr ⟨t, rfl, hid⟩, ?_⟩))
          simp [RouteTable.ensure, EC2.DescribeRouteTablesWithContext, hd, hid]
        | some id =>
          exact Or.inr (Or.inl ⟨t, rest, id, s1, rfl, hid, ensure_found r w substrate name t rest id s1 hd hid⟩)

/-! ### Readiness gating -/

/-- C1. With `Status.Infrastructure.VPCID` unset, `Create` returns
`(Result{Requeue: true}, nil)`, and the world (cloud state and call log) and
the substrate are exactly what they were: no describe, no create, no status
change. -/
theorem create_not_ready (r : RouteTable α σ) (w : World σ) (substrate : Substrate α)
    (h : substrate.Status.Infrastructure.VPCID = none) :
    r.Create w substrate
        = (Outcome.returned ({ Requeue := true, RequeueAfter := 0 }, none), substrate, w)
      ∧ w.issuedSince (r.Create w substrate).2.2 = [] := by
  have hc : r.Create w substrate
      = (Outcome.returned ({ Requeue := true, RequeueAfter := 0 }, none), substrate, w) := by
    unfold RouteTable.Create
    rw [h]
  rw [hc]
  exact ⟨rfl, by simp [World.issuedSince]⟩

/-- C1 at a substrate without VPC, over a client scripted to fail. -/
theorem create_not_ready_witness :
    mock.notReady.Status.Infrastructure.VPCID = none ∧
    (mock.reconciler.Create (mock.start []) mock.notReady
        = (Outcome.returned ({ Requeue := true, RequeueAfter := 0 }, none), mock.notReady, mock.start [])
      ∧ (mock.start []).issuedSince (mock.reconciler.Create (mock.start []) mock.notReady).2.2 = []) :=
  ⟨rfl, create_not_ready mock.reconciler (mock.start []) mock.notReady rfl⟩

/-! ### Full converge -/

/-- C2. With a set VPCID, when describe finds no table under the public
filter nor under the private filter and both creates return a table, `Create`
makes exactly the calls describe(public), create(public), describe(private),
create(private), both creates with the substrate's VPCID and the tags of their
role, records the identifiers of the two created tables, and returns
`(Result{}, nil)`. -/
theorem create_full_converge (r : RouteTable α σ) (w : World σ) (substrate : Substrate α)
    (vpc : String) (pub priv : ec2.RouteTable) (s1 s2 s3 s4 : σ)
    (hvpc : substrate.Status.Infrastructure.VPCID = some vpc)
    (hd1 : r.EC2.describeRouteTables w.cloud
        { Filters := r.discovery.Filters substrate [r.discovery.Name substrate ["public"]] }
      = (Except.ok { RouteTables := [] }, s1))
    (hc1 : r.EC2.createRouteTable s1 (r.createInput substrate (r.discovery.Name substrate ["public"]))
      = (Except.ok { RouteTable := some pub }, s2))
    (hd2 : r.EC2.describeRouteTables s2
        { Filters := r.discovery.Filters (setPublicRouteTableID substrate pub.RouteTableId)
            [r.discovery.Name (setPublicRouteTableID substrate pub.RouteTableId) ["private"]] }
      = (Except.ok { RouteTables := [] }, s3))
    (hc2 : r.EC2.createRouteTable s3
        (r.createInput (setPublicRouteTableID substrate pub.RouteTableId)
          (r.discovery.Name (setPublicRouteTableID substrate pub.RouteTableId) ["private"]))
      = (Except.ok { RouteTable := some priv }, s4)) :
    (r.Create w substrate).1 = Outcome.returned ({ Requeue := false, RequeueAfter := 0 }, none)
    ∧ (r.Create w substrate).2.1.Status.Infrastructure.PublicRouteTableID = pub.RouteTableId
    ∧ (r.Create w substrate).2.1.Status.Infrastructure.PrivateRouteTableID = priv.RouteTableId
    ∧ (r.Create w substrate).2.2.cloud = s4
    ∧ w.issuedSince (r.Create w substrate).2.2
        = [Call.DescribeRouteTables
            { Filters := r.discovery.Filters substrate [r.discovery.Name substrate ["public"]] },
           Call.CreateRouteTable
            { VpcId := some vpc
              TagSpecifications :=
                [{ ResourceType := some "route-table"
                   Tags := r.discovery.Tags substrate (r.discovery.Name substrate ["public"]) }] },
           Call.DescribeRouteTables
            { Filters := r.discovery.Filters (setPublicRouteTableID substrate pub.RouteTableId)
                [r.discovery.Name (setPublicRouteTableID substrate pub.RouteTableId) ["private"]] },
           Call.CreateRouteTable
            { VpcId := some vpc
              TagSpecifications :=
                [{ ResourceType := some "route-table"
                   Tags := r.discovery.Tags (setPublicRouteTableID substrate pub.RouteTableId)
                     (r.discovery.Name (setPublicRouteTableID substrate pub.RouteTableId)
                       ["private"]) }] }]
    ∧ ((w.issuedSince (r.Create w substrate).2.2).filter Call.isCreate).length = 2 := by
  have hc : r.Create w substrate
      = (Outcome.returned ({ Requeue := false, RequeueAfter := 0 }, none),
          setPrivateRouteTableID (setPublicRouteTableID substrate pub.RouteTableId) priv.RouteTableId,
          { cloud := s4
            calls := w.calls ++
              [Call.DescribeRouteTables
                { Filters := r.discovery.Filters substrate [r.discovery.Name substrate ["public"]] },
               Call.CreateRouteTable (r.createInput substrate (r.discovery.Name substrate ["public"])),
               Call.DescribeRouteTables
                { Filters := r.discovery.Filters (setPublicRouteTableID substrate pub.RouteTableId)
                    [r.discovery.Name (setPublicRouteTableID substrate pub.RouteTableId) ["private"]] },
               Call.CreateRouteTable
                (r.createInput (setPublicRouteTableID substrate pub.RouteTableId)
                  (r.discovery.Name (setPublicRouteTableID substrate pub.RouteTableId) ["private"]))] }) := by
    have e1 := ensure_created r w substrate _ _ s1 s2 hd1 hc1
    have e2 := ensure_created r
      { cloud := s2
        calls := w.calls ++
          [Call.DescribeRouteTables
            { Filters := r.discovery.Filters substrate [r.discovery.Name substrate ["public"]] },
           Call.CreateRouteTable (r.createInput substrate (r.discovery.Name substrate ["public"]))] }
      (setPublicRouteTableID substrate pub.RouteTableId) _ _ s3 s4 hd2 hc2
    unfold RouteTable.Create
    simp only [hvpc, e1, e2]
    simp
  rw [hc]
  simp [World.issuedSince, RouteTable.createInput, setPublicRouteTableID, setPrivateRouteTableID,
    hvpc, ResourceTypeRouteTable, Call.isCreate]

/-- C2 on a scripted client: both describes find nothing, both creates
succeed. -/
theorem create_full_converge_witness :
    mock.ready.Status.Infrastructure.VPCID = some "vpc-1"
    ∧ (mock.reconciler.Create (mock.start mock.convergeScript) mock.ready).1
        = Outcome.returned ({ Requeue := false, RequeueAfter := 0 }, none)
    ∧ (mock.reconciler.Create (mock.start mock.convergeScript) mock.ready).2.1.Status.Infrastructure.PublicRouteTableID
        = some "rtb-pub"
    ∧ (mock.reconciler.Create (mock.start mock.convergeScript) mock.ready).2.1.Status.Infrastructure.PrivateRouteTableID
        = some "rtb-priv"
    ∧ (((mock.start mock.convergeScript).issuedSince
          (mock.reconciler.Create (mock.start mock.convergeScript) mock.ready).2.2).filter
        Call.isCreate).length = 2 :=
  have h := create_full_converge mock.reconciler (mock.start mock.convergeScript) mock.ready "vpc-1"
    (mock.table "rtb-pub" "kit-public") (mock.table "rtb-priv" "kit-private")
    (mock.convergeScript.drop 1) (mock.convergeScript.drop 2) (mock.convergeScript.drop 3) []
    rfl rfl rfl rfl rfl
  ⟨rfl, h.1, h.2.1, h.2.2.1, h.2.2.2.2.2⟩

/-! ### Partial recovery -/

/-- C3. With a set VPCID, when describe under the public filter returns a
non-empty list whose first table carries the identifier `id`, describe under
the private filter returns nothing and the private create returns a table,
`Create` makes exactly the calls describe(public), describe(private),
create(private): no create for the public role, one for the private role. It
records `id` as public identifier and the created table's identifier as
private identifier, and returns `(Result{}, nil)`. -/
theorem create_partial_recovery (r : RouteTable α σ) (w : World σ) (substrate : Substrate α)
    (vpc id : String) (pub priv : ec2.RouteTable) (rest : List (Option ec2.RouteTable))
    (s1 s2 s3 : σ)
    (hvpc : substrate.Status.Infrastructure.VPCID = some vpc)
    (hd1 : r.EC2.describeRouteTables w.cloud
        { Filters := r.discovery.Filters substrate [r.discovery.Name substrate ["public"]] }
      = (Except.ok { RouteTables := some pub :: rest }, s1))
    (hid : pub.RouteTableId = some id)
    (hd2 : r.EC2.describeRouteTables s1
        { Filters := r.discovery.Filters (setPublicRouteTableID substrate (some id))
            [r.discovery.Name (setPublicRouteTableID substrate (some id)) ["private"]] }
      = (Except.ok { RouteTables := [] }, s2))
    (hc2 : r.EC2.createRouteTable s2
        (r.createInput (setPublicRouteTableID substrate (some id))
          (r.discovery.Name (setPublicRouteTableID substrate (some id)) ["private"]))
      = (Except.ok { RouteTable := some priv }, s3)) :
    (r.Create w substrate).1 = Outcome.returned ({ Requeue := false, RequeueAfter := 0 }, none)
    ∧ (r.Create w substrate).2.1.Status.Infrastructure.PublicRouteTableID = some id
    ∧ (r.Create w substrate).2.1.Status.Infrastructure.PrivateRouteTableID = priv.RouteTableId
    ∧ (r.Create w substrate).2.2.cloud = s3
    ∧ w.issuedSince (r.Create w substrate).2.2
        = [Call.DescribeRouteTables
            { Filters := r.discovery.Filters substrate [r.discovery.Name substrate ["public"]] },
           Call.DescribeRouteTables
            { Filters := r.discovery.Filters (setPublicRouteTableID substrate (some id))
                [r.discovery.Name (setPublicRouteTableID substrate (some id)) ["private"]] },
           Call.CreateRouteTable
            { VpcId := some vpc
              TagSpecifications :=
                [{ ResourceType := some "route-table"
                   Tags := r.discovery.Tags (setPublicRouteTableID substrate (some id))
                     (r.discovery.Name (setPublicRouteTableID substrate (some id)) ["private"]) }] }]
    ∧ (w.issuedSince (r.Create w substrate).2.2).filter Call.isCreate
        = [Call.CreateRouteTable
            (r.createInput (setPublicRouteTableID substrate (some id))
              (r.discovery.Name (setPublicRouteTableID substrate (some id)) ["private"]))] := by
  have hc : r.Create w substrate
      = (Outcome.returned ({ Requeue := false, RequeueAfter := 0 }, none),
          setPrivateRouteTableID (setPublicRouteTableID substrate (some id)) priv.RouteTableId,
          { cloud := s3
            calls := w.calls ++
              [Call.DescribeRouteTables
                { Filters := r.discovery.Filters substrate [r.discovery.Name substrate ["public"]] },
               Call.DescribeRouteTables
                { Filters := r.discovery.Filters (setPublicRouteTableID substrate (some id))
                    [r.discovery.Name (setPublicRouteTableID substrate (some id)) ["private"]] },
               Call.CreateRouteTable
                (r.createInput (setPublicRouteTableID substrate (some id))
                  (r.discovery.Name (setPublicRouteTableID substrate (some id)) ["private"]))] }) := by
    have e1 := ensure_found r w substrate _ pub rest id s1 hd1 hid
    have e2 := ensure_created r
      { cloud := s1
        calls := w.calls ++
          [Call.DescribeRouteTables
            { Filters := r.discovery.Filters substrate [r.discovery.Name substrate ["public"]] }] }
      (setPublicRouteTableID substrate (some id)) _ _ s2 s3 hd2 hc2
    unfold RouteTable.Create
    simp only [hvpc, e1, hid, e2]
    simp
  rw [hc]
  simp [World.issuedSince, RouteTable.createInput, setPublicRouteTableID, setPrivateRouteTableID,
    hvpc, ResourceTypeRouteTable, Call.isCreate]

/-- C3 on a scripted client: the public table exists, the private one is
created. -/
theorem create_partial_recovery_witness :
    mock.ready.Status.Infrastructure.VPCID = some "vpc-1"
    ∧ (mock.table "rtb-pub" "kit-public").RouteTableId = some "rtb-pub"
    ∧ (mock.reconciler.Create (mock.start mock.recoveryScript) mock.ready).1
        = Outcome.returned ({ Requeue := false, RequeueAfter := 0 }, none)
    ∧ (mock.reconciler.Create (mock.start mock.recoveryScript) mock.ready).2.1.Status.Infrastructure.PublicRouteTableID
        = some "rtb-pub"
    ∧ (mock.reconciler.Create (mock.start mock.recoveryScript) mock.ready).2.1.Status.Infrastructure.PrivateRouteTableID
        = some "rtb-priv" :=
  have h := create_partial_recovery mock.reconciler (mock.start mock.recoveryScript) mock.ready
    "vpc-1" "rtb-pub" (mock.table "rtb-pub" "kit-public") (mock.table "rtb-priv" "kit-private")
    [some (mock.table "rtb-old" "kit-public")]
    (mock.recoveryScript.drop 1) (mock.recoveryScript.drop 2) [] rfl rfl rfl rfl rfl
  ⟨rfl, rfl, h.1, h.2.1, h.2.2.1⟩

/-! ### Teardown -/

theorem filter_isDelete_deletes (l : List ec2.RouteTable) :
    (l.map fun t => Call.DeleteRouteTable { RouteTableId := t.RouteTableId }).filter Call.isDelete
      = l.map fun t => Call.DeleteRouteTable { RouteTableId := t.RouteTableId } := by
  induction l with
  | nil => rfl
  | cons a l ih => simp [Call.isDelete] at ih ⊢

/-- The loop runs through a prefix of tables whose deletes all succeed, logging
one delete call per table, and goes on with the rest of the list. -/
theorem deleteLoop_through (r : RouteTable α σ) (pre : List ec2.RouteTable)
    (tail : List (Option ec2.RouteTable)) (w : World σ) (s2 : σ)
    (hpre : r.EC2.deleteAll w.cloud pre = some s2) :
    r.deleteLoop w (pre.map some ++ tail)
      = r.deleteLoop
          { cloud := s2
            calls := w.calls
              ++ pre.map fun t => Call.DeleteRouteTable { RouteTableId := t.RouteTableId } }
          tail := by
  induction pre generalizing w with
  | nil =>
    simp only [EC2.deleteAll, Option.some.injEq] at hpre
    subst hpre
    simp
  | cons t ts ih =>
    rcases hdel : r.EC2.deleteRouteTable w.cloud { RouteTableId := t.RouteTableId } with ⟨res, s1⟩
    cases res with
    | error e => simp [EC2.deleteAll, hdel] at hpre
    | ok u =>
      simp only [EC2.deleteAll, hdel] at hpre
      have h := ih
        { cloud := s1
          calls := w.calls ++ [Call.DeleteRouteTable { RouteTableId := t.RouteTableId }] } hpre
      simp only [List.map_cons, List.cons_append, RouteTable.deleteLoop,
        EC2.DeleteRouteTableWithContext, hdel]
      simpa using h

theorem delete_after_describe (r : RouteTable α σ) (w : World σ) (substrate : Substrate α)
    (out : DescribeRouteTablesOutput) (s1 : σ)
    (hd : r.EC2.describeRouteTables w.cloud { Filters := r.discovery.Filters substrate [] }
      = (Except.ok out, s1)) :
    r.Delete w substrate
      = ((r.deleteLoop
            { cloud := s1
              calls := w.calls
                ++ [Call.DescribeRouteTables { Filters := r.discovery.Filters substrate [] }] }
            out.RouteTables).1,
          substrate,
          (r.deleteLoop
            { cloud := s1
              calls := w.calls
                ++ [Call.DescribeRouteTables { Filters := r.discovery.Filters substrate [] }] }
            out.RouteTables).2) := by
  rcases out with ⟨tables⟩
  cases tables with
  | nil => simp [RouteTable.Delete, EC2.DescribeRouteTablesWithContext, hd, RouteTable.deleteLoop]
  | cons first rest => simp [RouteTable.Delete, EC2.DescribeRouteTablesWithContext, hd]

/-- C6. When describe, called with the filter `discovery.Filters(substrate)`
that names no role, returns the `N` tables `ts` and every delete succeeds,
`Delete` returns `(Result{}, nil)` after the describe call and exactly `N`
delete calls, one per table, by identifier, in the order of `ts`; for `N = 0`
no delete call at all. -/
theorem delete_full_success (r : RouteTable α σ) (w : World σ) (substrate : Substrate α)
    (ts : List ec2.RouteTable) (s1 s2 : σ)
    (hd : r.EC2.describeRouteTables w.cloud { Filters := r.discovery.Filters substrate [] }
      = (Except.ok { RouteTables := ts.map some }, s1))
    (hall : r.EC2.deleteAll s1 ts = some s2) :
    r.Delete w substrate
        = (Outcome.returned ({ Requeue := false, RequeueAfter := 0 }, none), substrate,
            { cloud := s2
              calls := w.calls
                ++ Call.DescribeRouteTables { Filters := r.discovery.Filters substrate [] }
                  :: ts.map fun t => Call.DeleteRouteTable { RouteTableId := t.RouteTableId } })
    ∧ (w.issuedSince (r.Delete w substrate).2.2).filter Call.isDelete
        = ts.map (fun t => Call.DeleteRouteTable { RouteTableId := t.RouteTableId })
    ∧ ((w.issuedSince (r.Delete w substrate).2.2).filter Call.isDelete).length = ts.length
    ∧ (ts = [] → (w.issuedSince (r.Delete w substrate).2.2).filter Call.isDelete = []) := by
  have hloop := deleteLoop_through r ts []
    { cloud := s1
      calls := w.calls
        ++ [Call.DescribeRouteTables { Filters := r.discovery.Filters substrate [] }] } s2 hall
  have hc : r.Delete w substrate
      = (Outcome.returned ({ Requeue := false, RequeueAfter := 0 }, none), substrate,
          { cloud := s2
            calls := w.calls
              ++ Call.DescribeRouteTables { Filters := r.discovery.Filters substrate [] }
                :: ts.map fun t => Call.DeleteRouteTable { RouteTableId := t.RouteTableId } }) := by
    rw [delete_after_describe r w substrate _ s1 hd]
    simp only [List.append_nil] at hloop
    simp [hloop, RouteTable.deleteLoop]
  have hf := filter_isDelete_deletes
  rw [hc]
  have hi : w.issuedSince
      { cloud := s2
        calls := w.calls
          ++ Call.DescribeRouteTables { Filters := r.discovery.Filters substrate [] }
            :: ts.map fun t => Call.DeleteRouteTable { RouteTableId := t.RouteTableId } }
      = Call.DescribeRouteTables { Filters := r.discovery.Filters substrate [] }
            :: ts.map fun t => Call.DeleteRouteTable { RouteTableId := t.RouteTableId } :=
    World.issuedSince_append w s2 _
  refine ⟨rfl, ?_, ?_, ?_⟩
  · simp only [hi]
    rw [List.filter_cons_of_neg (by simp [Call.isDelete]), hf]
  · simp only [hi]
    rw [List.filter_cons_of_neg (by simp [Call.isDelete]), hf, List.length_map]
  · intro hnil
    subst hnil
    simp only [hi]
    simp [Call.isDelete]

/-- C6 on a scripted client: two tables found, both deleted, in order. -/
theorem delete_full_success_witness :
    mock.scripted.deleteAll (mock.teardownScript.drop 1)
        [mock.table "rtb-pub" "kit-public", mock.table "rtb-priv" "kit-private"] = some []
    ∧ (mock.reconciler.Delete (mock.start mock.teardownScript) mock.ready).1
        = Outcome.returned ({ Requeue := false, RequeueAfter := 0 }, none)
    ∧ ((mock.start mock.teardownScript).issuedSince
          (mock.reconciler.Delete (mock.start mock.teardownScript) mock.ready).2.2).filter Call.isDelete
        = [Call.DeleteRouteTable { RouteTableId := some "rtb-pub" },
           Call.DeleteRouteTable { RouteTableId := some "rtb-priv" }] :=
  have h := delete_full_success mock.reconciler (mock.start mock.teardownScript) mock.ready
    [mock.table "rtb-pub" "kit-public", mock.table "rtb-priv" "kit-private"]
    (mock.teardownScript.drop 1) [] rfl rfl
  ⟨rfl, congrArg Prod.fst h.1, h.2.1⟩

/-- C7. When describe returns the tables `pre ++ t :: post`, the deletes of the
tables of `pre` succeed and the delete of `t` (the table at index
`pre.length`) fails with an error whose code is `DependencyViolation`,
`Delete` returns `(Result{Requeue: true}, nil)`; its delete calls are exactly
those of `pre` followed by the one of `t`, `pre.length + 1` in all, and none
for a table of `post`; when `t` is the first table, the delete of `t` is the
only one. -/
theorem delete_dependency_violation (r : RouteTable α σ) (w : World σ) (substrate : Substrate α)
    (pre post : List ec2.RouteTable) (t : ec2.RouteTable) (e : GoError) (s1 s2 s3 : σ)
    (hd : r.EC2.describeRouteTables w.cloud { Filters := r.discovery.Filters substrate [] }
      = (Except.ok { RouteTables := (pre ++ t :: post).map some }, s1))
    (hpre : r.EC2.deleteAll s1 pre = some s2)
    (ht : r.EC2.deleteRouteTable s2 { RouteTableId := t.RouteTableId } = (Except.error e, s3))
    (hcode : e.awsCode = some "DependencyViolation") :
    r.Delete w substrate
        = (Outcome.returned ({ Requeue := true, RequeueAfter := 0 }, none), substrate,
            { cloud := s3
              calls := w.calls
                ++ Call.DescribeRouteTables { Filters := r.discovery.Filters substrate [] }
                  :: (pre ++ [t]).map fun t => Call.DeleteRouteTable { RouteTableId := t.RouteTableId } })
    ∧ (w.issuedSince (r.Delete w substrate).2.2).filter Call.isDelete
        = (pre ++ [t]).map (fun t => Call.DeleteRouteTable { RouteTableId := t.RouteTableId })
    ∧ ((w.issuedSince (r.Delete w substrate).2.2).filter Call.isDelete).length = pre.length + 1
    ∧ (pre = [] → (w.issuedSince (r.Delete w substrate).2.2).filter Call.isDelete
        = [Call.DeleteRouteTable { RouteTableId := t.RouteTableId }]) := by
  have hloop := deleteLoop_through r pre (some t :: post.map some)
    { cloud := s1
      calls := w.calls
        ++ [Call.DescribeRouteTables { Filters := r.discovery.Filters substrate [] }] } s2 hpre
  have hc : r.Delete w substrate
      = (Outcome.returned ({ Requeue := true, RequeueAfter := 0 }, none), substrate,
          { cloud := s3
            calls := w.calls
              ++ Call.DescribeRouteTables { Filters := r.discovery.Filters substrate [] }
                :: (pre ++ [t]).map fun t => Call.DeleteRouteTable { RouteTableId := t.RouteTableId } }) := by
    rw [delete_after_describe r w substrate _ s1 hd]
    simp only [List.map_append, List.map_cons]
    rw [hloop]
    simp [RouteTable.deleteLoop, EC2.DeleteRouteTableWithContext, ht, hcode]
  rw [hc, World.issuedSince_append]
  refine ⟨rfl, ?_, ?_, ?_⟩
  · rw [List.filter_cons_of_neg (by simp [Call.isDelete]), filter_isDelete_deletes]
  · rw [List.filter_cons_of_neg (by simp [Call.isDelete]), filter_isDelete_deletes]
    simp
  · intro hnil
    subst hnil
    simp [Call.isDelete]

/-- C7 on a scripted client: three tables found, the second delete meets the
dependency violation, the third table is not attempted. -/
theorem delete_dependency_violation_witness :
    mock.scripted.deleteAll (mock.backoffScript.drop 1) [mock.table "rtb-a" "kit-public"]
        = some (mock.backoffScript.drop 2)
    ∧ (GoError.awsError "DependencyViolation" "DependencyViolation: in use").awsCode
        = some "DependencyViolation"
    ∧ (mock.reconciler.Delete (mock.start mock.backoffScript) mock.ready).1
        = Outcome.returned ({ Requeue := true, RequeueAfter := 0 }, none)
    ∧ ((mock.start mock.backoffScript).issuedSince
          (mock.reconciler.Delete (mock.start mock.backoffScript) mock.ready).2.2).filter Call.isDelete
        = [Call.DeleteRouteTable { RouteTableId := some "rtb-a" },
           Call.DeleteRouteTable { RouteTableId := some "rtb-b" }] :=
  have h := delete_dependency_violation mock.reconciler (mock.start mock.backoffScript) mock.ready
    [mock.table "rtb-a" "kit-public"] [mock.table "rtb-c" "kit-private"]
    (mock.table "rtb-b" "kit-private")
    (GoError.awsError "DependencyViolation" "DependencyViolation: in use")
    (mock.backoffScript.drop 1) (mock.backoffScript.drop 2) (mock.backoffScript.drop 3)
    rfl rfl rfl rfl
  ⟨rfl, rfl, congrArg Prod.fst h.1, h.2.1⟩

/-- A delete that fails with an AWS error whose code is not
`DependencyViolation` ends `Delete` with `Result{}` and the error
`deleting route table, <cause>` wrapping the cause; no later table is tried. -/
theorem delete_aws_error_fatal (r : RouteTable α σ) (w : World σ) (substrate : Substrate α)
    (pre post : List ec2.RouteTable) (t : ec2.RouteTable) (e : GoError) (code : String)
    (s1 s2 s3 : σ)
    (hd : r.EC2.describeRouteTables w.cloud { Filters := r.discovery.Filters substrate [] }
      = (Except.ok { RouteTables := (pre ++ t :: post).map some }, s1))
    (hpre : r.EC2.deleteAll s1 pre = some s2)
    (ht : r.EC2.deleteRouteTable s2 { RouteTableId := t.RouteTableId } = (Except.error e, s3))
    (hcode : e.awsCode = some code) (hne : code ≠ "DependencyViolation") :
    r.Delete w substrate
        = (Outcome.returned ({ Requeue := false, RequeueAfter := 0 },
              some (GoError.wrapError ("deleting route table, " ++ e.Error) e)), substrate,
            { cloud := s3
              calls := w.calls
                ++ Call.DescribeRouteTables { Filters := r.discovery.Filters substrate [] }
                  :: (pre ++ [t]).map fun t => Call.DeleteRouteTable { RouteTableId := t.RouteTableId } })
    ∧ (GoError.wrapError ("deleting route table, " ++ e.Error) e).Unwrap = some e := by
  have hloop := deleteLoop_through r pre (some t :: post.map some)
    { cloud := s1
      calls := w.calls
        ++ [Call.DescribeRouteTables { Filters := r.discovery.Filters substrate [] }] } s2 hpre
  refine ⟨?_, rfl⟩
  rw [delete_after_describe r w substrate _ s1 hd]
  simp only [List.map_append, List.map_cons]
  rw [hloop]
  simp [RouteTable.deleteLoop, EC2.DeleteRouteTableWithContext, ht, hcode, hne, fmt.Errorf]

/-- A delete that fails with an error value not implementing `awserr.Error`
makes `Delete` panic at the type assertion of line 88. -/
theorem delete_untyped_error_panics (r : RouteTable α σ) (w : World σ) (substrate : Substrate α)
    (pre post : List ec2.RouteTable) (t : ec2.RouteTable) (e : GoError) (s1 s2 s3 : σ)
    (hd : r.EC2.describeRouteTables w.cloud { Filters := r.discovery.Filters substrate [] }
      = (Except.ok { RouteTables := (pre ++ t :: post).map some }, s1))
    (hpre : r.EC2.deleteAll s1 pre = some s2)
    (ht : r.EC2.deleteRouteTable s2 { RouteTableId := t.RouteTableId } = (Except.error e, s3))
    (hcode : e.awsCode = none) :
    (r.Delete w substrate).1 = Outcome.panicked := by
  have hloop := deleteLoop_through r pre (some t :: post.map some)
    { cloud := s1
      calls := w.calls
        ++ [Call.DescribeRouteTables { Filters := r.discovery.Filters substrate [] }] } s2 hpre
  rw [delete_after_describe r w substrate _ s1 hd]
  simp only [List.map_append, List.map_cons]
  rw [hloop]
  simp [RouteTable.deleteLoop, EC2.DeleteRouteTableWithContext, ht, hcode]

/-- C8, at the failing input. The first delete fails with an error value that
does not implement `awserr.Error` (it is not nil and carries no AWS code):
`Delete` does not return the wrapped error `deleting route table, ...`, it
panics at the type assertion of line 88, after the describe call and that one
delete call. With an AWS error of another code in the same place it does
return `Result{}` with the wrapped error. -/
theorem delete_untyped_error_diverges :
    (GoError.plain "context deadline exceeded").awsCode = none
    ∧ mock.reconciler.Delete (mock.start mock.plainErrorScript) mock.ready
        = (Outcome.panicked, mock.ready,
            { cloud := [mock.Reply.delete (Except.ok ())]
              calls :=
                [Call.DescribeRouteTables { Filters := [] },
                 Call.DeleteRouteTable { RouteTableId := some "rtb-a" }] })
    ∧ (mock.reconciler.Delete (mock.start mock.plainErrorScript) mock.ready).1
        ≠ Outcome.returned ({ Requeue := false, RequeueAfter := 0 },
            some (fmt.Errorf "deleting route table, " (GoError.plain "context deadline exceeded")))
    ∧ (mock.reconciler.Delete (mock.start mock.unauthorizedScript) mock.ready).1
        = Outcome.returned ({ Requeue := false, RequeueAfter := 0 },
            some (GoError.wrapError "deleting route table, UnauthorizedOperation: denied"
              (GoError.awsError "UnauthorizedOperation" "UnauthorizedOperation: denied"))) := by
  refine ⟨rfl, rfl, ?_, ?_⟩
  · have h : (mock.reconciler.Delete (mock.start mock.plainErrorScript) mock.ready).1
        = Outcome.panicked := rfl
    rw [h]
    exact fun hne => Outcome.noConfusion hne
  · decide

/-! ### First match wins -/

/-- When the first element of the describe answer is nil, or is a table whose
`RouteTableId` is nil, `ensure` panics while it evaluates the arguments of the
debug log of line 58; it has made the describe call and no create call. -/
theorem ensure_first_without_id_panics (r : RouteTable α σ) (w : World σ) (substrate : Substrate α)
    (name : Option String) (first : Option ec2.RouteTable) (rest : List (Option ec2.RouteTable))
    (s1 : σ)
    (hd : r.EC2.describeRouteTables w.cloud { Filters := r.discovery.Filters substrate [name] }
      = (Except.ok { RouteTables := first :: rest }, s1))
    (hfirst : first = none ∨ ∃ t, first = some t ∧ t.RouteTableId = none) :
    r.ensure w substrate name
      = (Outcome.panicked,
          { cloud := s1
            calls := w.calls
              ++ [Call.DescribeRouteTables { Filters := r.discovery.Filters substrate [name] }] }) := by
  rcases hfirst with h | ⟨t, h, hid⟩
  · subst h
    simp [RouteTable.ensure, EC2.DescribeRouteTablesWithContext, hd]
  · subst h
    simp [RouteTable.ensure, EC2.DescribeRouteTablesWithContext, hd, hid]

/-- C4, at the failing input. Describe succeeds with a one-element list whose
table has a nil `RouteTableId`: `ensure` does not return that element, it
panics on the dereference in the debug log of line 58 (after the describe
call, with no create call). -/
theorem ensure_first_match_diverges :
    mock.reconciler.ensure (mock.start mock.noIdScript) mock.ready (some "kit-public")
        = (Outcome.panicked,
            { cloud := [mock.Reply.create
                (Except.ok { RouteTable := some (mock.table "rtb-new" "kit-public") })]
              calls :=
                [Call.DescribeRouteTables
                  { Filters := [{ Name := some "Name", Values := [some "kit-public"] }] }] })
    ∧ (mock.reconciler.ensure (mock.start mock.noIdScript) mock.ready (some "kit-public")).1
        ≠ Outcome.returned (some mock.tableWithoutId, none) := by
  refine ⟨rfl, ?_⟩
  have h : (mock.reconciler.ensure (mock.start mock.noIdScript) mock.ready (some "kit-public")).1
      = Outcome.panicked := rfl
  rw [h]
  exact fun hne => Outcome.noConfusion hne

/-! ### Failure of an ensure -/

/-- When `ensure` returns an error, the error is the describe failure wrapped
as `describing route tables, ...` (one describe call made) or the create
failure wrapped as `creating route table, ...` (a describe and a create call
made). -/
theorem ensure_error_form (r : RouteTable α σ) (w : World σ) (substrate : Substrate α)
    (name : Option String) (x : Option ec2.RouteTable) (err : GoError) (w1 : World σ)
    (h : r.ensure w substrate name = (Outcome.returned (x, some err), w1)) :
    (∃ cause s1,
      r.EC2.describeRouteTables w.cloud { Filters := r.discovery.Filters substrate [name] }
        = (Except.error cause, s1) ∧
      err = GoError.wrapError ("describing route tables, " ++ cause.Error) cause ∧
      w.issuedSince w1
        = [Call.DescribeRouteTables { Filters := r.discovery.Filters substrate [name] }])
    ∨ (∃ cause s1 s2,
      r.EC2.describeRouteTables w.cloud { Filters := r.discovery.Filters substrate [name] }
        = (Except.ok { RouteTables := [] }, s1) ∧
      r.EC2.createRouteTable s1 (r.createInput substrate name) = (Except.error cause, s2) ∧
      err = GoError.wrapError ("creating route table, " ++ cause.Error) cause ∧
      w.issuedSince w1
        = [Call.DescribeRouteTables { Filters := r.discovery.Filters substrate [name] },
           Call.CreateRouteTable (r.createInput substrate name)]) := by
  rcases ensure_cases r w substrate name with
    ⟨e, s1, hd, he⟩ | ⟨t, rest, id, s1, _, _, he⟩ | ⟨first, rest, s1, _, _, he⟩
      | ⟨s1, out, s2, _, _, he⟩ | ⟨s1, e, s2, hd, hc, he⟩
  · rw [he] at h
    simp only [Prod.mk.injEq, Outcome.returned.injEq, Option.some.injEq] at h
    obtain ⟨⟨_, herr⟩, hw⟩ := h
    subst hw
    exact Or.inl ⟨e, s1, hd, herr.symm, World.issuedSince_append w s1 _⟩
  · rw [he] at h
    simp at h
  · rw [he] at h
    simp at h
  · rw [he] at h
    simp at h
  · rw [he] at h
    simp only [Prod.mk.injEq, Outcome.returned.injEq, Option.some.injEq] at h
    obtain ⟨⟨_, herr⟩, hw⟩ := h
    subst hw
    exact Or.inr ⟨e, s1, s2, hd, hc, herr.symm, World.issuedSince_append w s2 _⟩

/-- The calls of one `ensure`: a describe, or a describe then a create. -/
theorem ensure_calls (r : RouteTable α σ) (w : World σ) (substrate : Substrate α)
    (name : Option String) :
    (r.ensure w substrate name).2.calls
        = w.calls ++ [Call.DescribeRouteTables { Filters := r.discovery.Filters substrate [name] }]
    ∨ (r.ensure w substrate name).2.calls
        = w.calls ++ [Call.DescribeRouteTables { Filters := r.discovery.Filters substrate [name] },
            Call.CreateRouteTable (r.createInput substrate name)] := by
  rcases ensure_cases r w substrate name with
    ⟨e, s1, _, he⟩ | ⟨t, rest, id, s1, _, _, he⟩ | ⟨first, rest, s1, _, _, he⟩
      | ⟨s1, out, s2, _, _, he⟩ | ⟨s1, e, s2, _, _, he⟩
  all_goals rw [he]
  all_goals simp

/-- C9. With a set VPCID: (a) when the public `ensure` returns an error,
`Create` returns `Result{}` with that error, which is the describe or create
failure wrapped as `describing route tables, ...` or
`creating route table, ...`; the world is the one the public `ensure` left (so
the only calls are its describe and possibly its create, none for the private
role) and the substrate is unchanged. (b) When the public `ensure` returns a
table and the private `ensure` returns an error, `Create` returns `Result{}`
with that wrapped error, the public identifier is the one of the public table,
the private identifier is unchanged, and no delete call was made. -/
theorem create_ensure_failure (r : RouteTable α σ) (w : World σ) (substrate : Substrate α)
    (vpc : String) (hvpc : substrate.Status.Infrastructure.VPCID = some vpc) :
    (∀ x err w1,
      r.ensure w substrate (r.discovery.Name substrate ["public"])
        = (Outcome.returned (x, some err), w1) →
      r.Create w substrate
          = (Outcome.returned ({ Requeue := false, RequeueAfter := 0 }, some err), substrate, w1)
      ∧ ((∃ cause s1,
            r.EC2.describeRouteTables w.cloud
                { Filters := r.discovery.Filters substrate [r.discovery.Name substrate ["public"]] }
              = (Except.error cause, s1)
            ∧ err = fmt.Errorf "describing route tables, " cause
            ∧ w.issuedSince w1
              = [Call.DescribeRouteTables
                  { Filters := r.discovery.Filters substrate
                      [r.discovery.Name substrate ["public"]] }])
          ∨ (∃ cause s1 s2,
            r.EC2.describeRouteTables w.cloud
                { Filters := r.discovery.Filters substrate [r.discovery.Name substrate ["public"]] }
              = (Except.ok { RouteTables := [] }, s1)
            ∧ r.EC2.createRouteTable s1
                (r.createInput substrate (r.discovery.Name substrate ["public"]))
              = (Except.error cause, s2)
            ∧ err = fmt.Errorf "creating route table, " cause
            ∧ w.issuedSince w1
              = [Call.DescribeRouteTables
                  { Filters := r.discovery.Filters substrate
                      [r.discovery.Name substrate ["public"]] },
                 Call.CreateRouteTable
                  (r.createInput substrate (r.discovery.Name substrate ["public"]))])))
    ∧ (∀ pub x err w1 w2,
      r.ensure w substrate (r.discovery.Name substrate ["public"])
        = (Outcome.returned (some pub, none), w1) →
      r.ensure w1 (setPublicRouteTableID substrate pub.RouteTableId)
          (r.discovery.Name (setPublicRouteTableID substrate pub.RouteTableId) ["private"])
        = (Outcome.returned (x, some err), w2) →
      r.Create w substrate
          = (Outcome.returned ({ Requeue := false, RequeueAfter := 0 }, some err),
              setPublicRouteTableID substrate pub.RouteTableId, w2)
      ∧ (r.Create w substrate).2.1.Status.Infrastructure.PublicRouteTableID = pub.RouteTableId
      ∧ (r.Create w substrate).2.1.Status.Infrastructure.PrivateRouteTableID
          = substrate.Status.Infrastructure.PrivateRouteTableID
      ∧ ((∃ cause, err = fmt.Errorf "describing route tables, " cause)
          ∨ (∃ cause, err = fmt.Errorf "creating route table, " cause))
      ∧ (w.issuedSince (r.Create w substrate).2.2).filter Call.isDelete = []) := by
  constructor
  · intro x err w1 h
    have hc : r.Create w substrate
        = (Outcome.returned ({ Requeue := false, RequeueAfter := 0 }, some err), substrate, w1) := by
      unfold RouteTable.Create
      simp only [hvpc, h]
    refine ⟨hc, ?_⟩
    rcases ensure_error_form r w substrate _ x err w1 h with
      ⟨cause, s1, hd, herr, hcalls⟩ | ⟨cause, s1, s2, hd, hcr, herr, hcalls⟩
    · exact Or.inl ⟨cause, s1, hd, herr, hcalls⟩
    · exact Or.inr ⟨cause, s1, s2, hd, hcr, herr, hcalls⟩
  · intro pub x err w1 w2 h1 h2
    have hc : r.Create w substrate
        = (Outcome.returned ({ Requeue := false, RequeueAfter := 0 }, some err),
            setPublicRouteTableID substrate pub.RouteTableId, w2) := by
      unfold RouteTable.Create
      simp only [hvpc, h1, h2]
    refine ⟨hc, ?_, ?_, ?_, ?_⟩
    · rw [hc]
      rfl
    · rw [hc]
      rfl
    · rcases ensure_error_form r w1 _ _ x err w2 h2 with
        ⟨cause, s1, _, herr, _⟩ | ⟨cause, s1, s2, _, _, herr, _⟩
      · exact Or.inl ⟨cause, herr⟩
      · exact Or.inr ⟨cause, herr⟩
    · rw [hc]
      have c1 := ensure_calls r w substrate (r.discovery.Name substrate ["public"])
      have c2 := ensure_calls r w1 (setPublicRouteTableID substrate pub.RouteTableId)
        (r.discovery.Name (setPublicRouteTableID substrate pub.RouteTableId) ["private"])
      rw [h1] at c1
      rw [h2] at c2
      simp only at c1 c2
      rcases c1 with c1 | c1 <;> rcases c2 with c2 | c2 <;>
        simp [World.issuedSince, c2, c1, Call.isDelete]

/-! ### Idempotent ensure -/

/-- C5. Over a cloud in which describe reliably reflects prior creates
(`ReliableDescribe`), when a first `ensure` returns the table `t1`, a second
`ensure` right after it returns the same table `t1`, so the same identifier
(which is set), and makes no create call; the two calls together make exactly
one create call when the first describe found nothing, and none when it found
a table. -/
theorem ensure_idempotent (r : RouteTable α σ) (w w1 : World σ) (substrate : Substrate α)
    (name : Option String) (t1 : ec2.RouteTable)
    (hcloud : ReliableDescribe r substrate name)
    (h1 : r.ensure w substrate name = (Outcome.returned (some t1, none), w1)) :
    (r.ensure w1 substrate name).1 = Outcome.returned (some t1, none)
    ∧ (∃ id, t1.RouteTableId = some id)
    ∧ (w1.issuedSince (r.ensure w1 substrate name).2).filter Call.isCreate = []
    ∧ (∀ s, r.EC2.describeRouteTables w.cloud { Filters := r.discovery.Filters substrate [name] }
          = (Except.ok { RouteTables := [] }, s) →
        (w.issuedSince (r.ensure w1 substrate name).2).filter Call.isCreate
          = [Call.CreateRouteTable (r.createInput substrate name)])
    ∧ (∀ first rest s,
        r.EC2.describeRouteTables w.cloud { Filters := r.discovery.Filters substrate [name] }
          = (Except.ok { RouteTables := first :: rest }, s) →
        (w.issuedSince (r.ensure w1 substrate name).2).filter Call.isCreate = []) := by
  rcases ensure_cases r w substrate name with
    ⟨e, s1, _, he⟩ | ⟨t, rest, id, s1, hd, hid, he⟩ | ⟨first, rest, s1, _, _, he⟩
      | ⟨s1, out, s2, hd, hc, he⟩ | ⟨s1, e, s2, _, _, he⟩
  · rw [he] at h1
    simp at h1
  · rw [he] at h1
    simp only [Prod.mk.injEq, Outcome.returned.injEq, Option.some.injEq, and_true] at h1
    obtain ⟨ht, hw⟩ := h1
    subst ht
    subst hw
    have hst := hcloud.stable w.cloud _ s1 hd
    have hd2 : r.EC2.describeRouteTables s1 { Filters := r.discovery.Filters substrate [name] }
        = (Except.ok { RouteTables := some t :: rest },
            (r.EC2.describeRouteTables s1 { Filters := r.discovery.Filters substrate [name] }).2) :=
      Prod.ext hst rfl
    have e2 := ensure_found r
      { cloud := s1
        calls := w.calls
          ++ [Call.DescribeRouteTables { Filters := r.discovery.Filters substrate [name] }] }
      substrate name t rest id _ hd2 hid
    rw [e2]
    refine ⟨rfl, ⟨id, hid⟩, ?_, ?_, ?_⟩
    · simp [World.issuedSince, Call.isCreate]
    · intro s hs
      rw [hd] at hs
      simp at hs
    · intro first rest2 s _
      simp [World.issuedSince, Call.isCreate]
  · rw [he] at h1
    simp at h1
  · rw [he] at h1
    simp only [Prod.mk.injEq, Outcome.returned.injEq, and_true] at h1
    obtain ⟨ht, hw⟩ := h1
    subst hw
    have hc2 : r.EC2.createRouteTable s1 (r.createInput substrate name)
        = (Except.ok { RouteTable := some t1 }, s2) := by
      rw [hc]
      rcases out with ⟨rt⟩
      simp only at ht
      rw [ht]
    obtain ⟨⟨id, hid⟩, hrefl⟩ := hcloud.reflectsCreate w.cloud s1 t1 s2 hd hc2
    have hd2 : r.EC2.describeRouteTables s2 { Filters := r.discovery.Filters substrate [name] }
        = (Except.ok { RouteTables := [some t1] },
            (r.EC2.describeRouteTables s2 { Filters := r.discovery.Filters substrate [name] }).2) :=
      Prod.ext hrefl rfl
    have e2 := ensure_found r
      { cloud := s2
        calls := w.calls
          ++ [Call.DescribeRouteTables { Filters := r.discovery.Filters substrate [name] },
              Call.CreateRouteTable (r.createInput substrate name)] }
      substrate name t1 [] id _ hd2 hid
    rw [e2]
    refine ⟨rfl, ⟨id, hid⟩, ?_, ?_, ?_⟩
    · simp [World.issuedSince, Call.isCreate]
    · intro s _
      simp [World.issuedSince, Call.isCreate]
    · intro first rest s hs
      rw [hd] at hs
      simp at hs
  · rw [he] at h1
    simp at h1

/-! ### Status frame -/

theorem create_substrate_cases (r : RouteTable α σ) (w : World σ) (substrate : Substrate α) :
    (r.Create w substrate).2.1 = substrate
    ∨ (∃ a, (r.Create w substrate).2.1 = setPublicRouteTableID substrate a)
    ∨ (∃ a b, (r.Create w substrate).2.1
        = setPrivateRouteTableID (setPublicRouteTableID substrate a) b) := by
  unfold RouteTable.Create
  split
  · exact Or.inl rfl
  · split
    · exact Or.inl rfl
    · exact Or.inl rfl
    · exact Or.inl rfl
    · dsimp only
      split
      · exact Or.inr (Or.inl ⟨_, rfl⟩)
      · exact Or.inr (Or.inl ⟨_, rfl⟩)
      · exact Or.inr (Or.inl ⟨_, rfl⟩)
      · exact Or.inr (Or.inr ⟨_, _, rfl⟩)

/-- C10. Whatever the cloud answers and however `Create` ends, the substrate
it leaves differs from the one it received at most in
`Status.Infrastructure.PublicRouteTableID` and `PrivateRouteTableID`: the
VPCID and all other fields are unchanged. `Delete` leaves the substrate
exactly as it received it, however it ends. -/
theorem status_frame (r : RouteTable α σ) (w : World σ) (substrate : Substrate α) :
    (r.Create w substrate).2.1.other = substrate.other
    ∧ (r.Create w substrate).2.1.Status.Infrastructure.VPCID
        = substrate.Status.Infrastructure.VPCID
    ∧ (r.Create w substrate).2.1
        = setPrivateRouteTableID
            (setPublicRouteTableID substrate
              (r.Create w substrate).2.1.Status.Infrastructure.PublicRouteTableID)
            (r.Create w substrate).2.1.Status.Infrastructure.PrivateRouteTableID
    ∧ (r.Delete w substrate).2.1 = substrate := by
  refine ⟨?_, ?_, ?_, ?_⟩
  · rcases create_substrate_cases r w substrate with h | ⟨a, h⟩ | ⟨a, b, h⟩ <;> rw [h] <;> rfl
  · rcases create_substrate_cases r w substrate with h | ⟨a, h⟩ | ⟨a, b, h⟩ <;> rw [h] <;> rfl
  · rcases create_substrate_cases r w substrate with h | ⟨a, h⟩ | ⟨a, b, h⟩ <;> rw [h] <;> rfl
  · unfold RouteTable.Delete
    split
    · rfl
    · split <;> rfl

/-! ### Instances on the example clients -/

/-- The storing cloud is a reliable cloud for every substrate and role name. -/
theorem store_reliable (substrate : Substrate Unit) (name : Option String) :
    ReliableDescribe mock.storeReconciler substrate name := by
  constructor
  · intro s out s1 h
    simp only [mock.storeReconciler, mock.store, Prod.mk.injEq, Except.ok.injEq] at h ⊢
    obtain ⟨hout, hs⟩ := h
    subst hs
    exact hout
  · intro s0 s t s1 hd hc
    simp only [mock.storeReconciler, mock.store, Prod.mk.injEq, Except.ok.injEq,
      DescribeRouteTablesOutput.mk.injEq, List.map_eq_nil_iff] at hd
    obtain ⟨hnone, hs⟩ := hd
    subst hs
    simp only [mock.storeReconciler, mock.store, Prod.mk.injEq, Except.ok.injEq,
      CreateRouteTableOutput.mk.injEq, Option.some.injEq] at hc
    obtain ⟨ht, hs1⟩ := hc
    subst hs1
    subst ht
    refine ⟨⟨_, rfl⟩, ?_⟩
    simp only [mock.storeReconciler, mock.store, List.filter_append, hnone, List.nil_append]
    simp [mock.fresh, mock.satisfies, RouteTable.createInput, mock.helpers]

/-- C5 on the storing cloud, started empty: the first `ensure` creates the
public table, the second one finds it. -/
theorem ensure_idempotent_witness :
    ReliableDescribe mock.storeReconciler mock.ready (some "kit-public")
    ∧ mock.storeReconciler.ensure { cloud := [], calls := [] } mock.ready (some "kit-public")
        = (Outcome.returned (some (mock.table "rtb" "kit-public"), none),
            { cloud := [mock.table "rtb" "kit-public"]
              calls :=
                [Call.DescribeRouteTables
                  { Filters := [{ Name := some "Name", Values := [some "kit-public"] }] },
                 Call.CreateRouteTable
                  (mock.storeReconciler.createInput mock.ready (some "kit-public"))] })
    ∧ (mock.storeReconciler.ensure
          { cloud := [mock.table "rtb" "kit-public"]
            calls :=
              [Call.DescribeRouteTables
                { Filters := [{ Name := some "Name", Values := [some "kit-public"] }] },
               Call.CreateRouteTable
                (mock.storeReconciler.createInput mock.ready (some "kit-public"))] }
          mock.ready (some "kit-public")).1
        = Outcome.returned (some (mock.table "rtb" "kit-public"), none) :=
  ⟨store_reliable mock.ready (some "kit-public"), by decide,
    (ensure_idempotent mock.storeReconciler { cloud := [], calls := [] } _ mock.ready
      (some "kit-public") (mock.table "rtb" "kit-public")
      (store_reliable mock.ready (some "kit-public")) (by decide)).1⟩

/-- C9 on scripted clients: (a) the public describe fails; (b) the public
table is found and the private create fails. -/
theorem create_ensure_failure_witness :
    mock.ready.Status.Infrastructure.VPCID = some "vpc-1"
    ∧ mock.reconciler.Create (mock.start mock.describeFailsScript) mock.ready
        = (Outcome.returned ({ Requeue := false, RequeueAfter := 0 },
              some (GoError.wrapError "describing route tables, RequestLimitExceeded: slow down"
                (GoError.awsError "RequestLimitExceeded" "RequestLimitExceeded: slow down"))),
            mock.ready,
            { cloud := []
              calls :=
                [Call.DescribeRouteTables
                  { Filters := [{ Name := some "Name", Values := [some "kit-public"] }] }] })
    ∧ (mock.reconciler.Create (mock.start mock.privateFailsScript) mock.ready).1
        = Outcome.returned ({ Requeue := false, RequeueAfter := 0 },
            some (GoError.wrapError "creating route table, connection reset"
              (GoError.plain "connection reset")))
    ∧ (mock.reconciler.Create (mock.start mock.privateFailsScript) mock.ready).2.1.Status.Infrastructure.PublicRouteTableID
        = some "rtb-pub"
    ∧ (mock.reconciler.Create (mock.start mock.privateFailsScript) mock.ready).2.1.Status.Infrastructure.PrivateRouteTableID
        = none :=
  have ha := (create_ensure_failure mock.reconciler (mock.start mock.describeFailsScript)
    mock.ready "vpc-1" rfl).1 none
      (GoError.wrapError "describing route tables, RequestLimitExceeded: slow down"
        (GoError.awsError "RequestLimitExceeded" "RequestLimitExceeded: slow down"))
      { cloud := []
        calls :=
          [Call.DescribeRouteTables
            { Filters := [{ Name := some "Name", Values := [some "kit-public"] }] }] }
      rfl
  have hb := (create_ensure_failure mock.reconciler (mock.start mock.privateFailsScript)
    mock.ready "vpc-1" rfl).2 (mock.table "rtb-pub" "kit-public") none
      (GoError.wrapError "creating route table, connection reset" (GoError.plain "connection reset"))
      { cloud := mock.privateFailsScript.drop 1
        calls :=
          [Call.DescribeRouteTables
            { Filters := [{ Name := some "Name", Values := [some "kit-public"] }] }] }
      { cloud := []
        calls :=
          [Call.DescribeRouteTables
            { Filters := [{ Name := some "Name", Values := [some "kit-public"] }] },
           Call.DescribeRouteTables
            { Filters := [{ Name := some "Name", Values := [some "kit-private"] }] },
           Call.CreateRouteTable
            (mock.reconciler.createInput
              (setPublicRouteTableID mock.ready (some "rtb-pub")) (some "kit-private"))] }
      rfl rfl
  ⟨rfl, ha.1, congrArg Prod.fst hb.1, hb.2.1, hb.2.2.1⟩

end infrastructure
